import Mathlib

/-!
Verification of the APC UPS serial protocol engine (apcserial.py together with
checksum/fletcherNbit.py) against its natural-language specification.

The program is shallowly embedded: byte strings are lists of naturals, the
mutable `ups_state` dictionary is an insertion-ordered association list, and
operations that can raise a Python exception (out-of-range indexing, a missing
dictionary key, decoding of non-ASCII bytes) return `Option`, with `none`
standing for an uncaught exception.  The serial transport is abstracted: each
poll cycle of the `run` loop receives the byte list produced by `receive_msg`
as an explicit parameter (and the handshake branch for message id 0x7f, which
performs a nested write/receive, takes a second such parameter).  Wall-clock
sleeps and the serial writes themselves carry no information relevant to the
verified properties and are not recorded.
-/

namespace ApcSerial

/-- Python slice `l[a:b]` for `0 ≤ a ≤ b` (total, clamps like Python). -/
def pySlice (l : List ℕ) (a b : ℕ) : List ℕ := (l.drop a).take (b - a)

/-- Python slice `l[a:]`. -/
def pySliceFrom (l : List ℕ) (a : ℕ) : List ℕ := l.drop a

/-- Python slice `l[:len l - n]`, i.e. `l[0:-n]` (empty when `n ≥ len l`). -/
def pyDropLast (l : List ℕ) (n : ℕ) : List ℕ := l.take (l.length - n)

/-- Python slice `l[-n:]` (the whole list when `n ≥ len l`). -/
def pyTakeLast (l : List ℕ) (n : ℕ) : List ℕ := l.drop (l.length - n)

/-- Python slice `l[1:-2]` (empty whenever `len l ≤ 3`). -/
def pySliceMid (l : List ℕ) : List ℕ := (l.take (l.length - 2)).drop 1

/-- Python `int.from_bytes(l, byteorder="big", signed=False)`. -/
def fromBytesBE (l : List ℕ) : ℕ := l.foldl (fun a b => a * 256 + b) 0

/-- Python `int.from_bytes(l, byteorder="big", signed=True)`:
    two's-complement interpretation over exactly `l.length` bytes. -/
def fromBytesBESigned (l : List ℕ) : ℤ :=
  let u := fromBytesBE l
  if 2 * u ≥ 256 ^ l.length then (u : ℤ) - 256 ^ l.length else (u : ℤ)

/-- Python `int.from_bytes(l, byteorder="little")` (unsigned). -/
def fromBytesLE (l : List ℕ) : ℕ := l.foldr (fun b a => a * 256 + b) 0

/-- Python `v.to_bytes(2, byteorder="big", signed=False)`.  Every checksum this
    file produces is at most 0xFFFF, so the OverflowError case cannot occur. -/
def toBytesBE2 (v : ℕ) : List ℕ := [v / 256, v % 256]

/-- Python `int(q)` on a float: truncation toward zero. -/
def pyIntTrunc (q : ℚ) : ℤ := q.num / (q.den : ℤ)

/-- Python `bytes.decode()` modelled on the ASCII range, which is the only
    range the verified properties exercise; non-ASCII input is treated as a
    decode error (`none`). -/
def asciiDecode (l : List ℕ) : Option String :=
  if l.all (fun b => b < 128) then some (String.mk (l.map (fun b => Char.ofNat b))) else none

/-! ## Checksum Engine (checksum/fletcherNbit.py, class Fletcher) -/

/-- The four accumulator fields of a `Fletcher` instance after `update`. -/
structure Fletcher where
  c0 : ℕ
  c1 : ℕ
  cb0 : ℕ
  cb1 : ℕ
deriving DecidableEq, Repr

/-- One iteration of the accumulation loop of `Fletcher.update`:
    `c0 = (c0 + bytepart) % 255; c1 = (c1 + c0) % 255`. -/
def fletcher_byte_step (c : ℕ × ℕ) (bytepart : ℕ) : ℕ × ℕ :=
  let c0 := (c.1 + bytepart) % 255
  let c1 := (c.2 + c0) % 255
  (c0, c1)

/-- `Fletcher().update(bytestring)` for the 8-bit instance
    (`modulus = 255`, `bitshift = 8`, `bytes_read = 1`), starting from the
    freshly-constructed accumulators `c0 = c1 = 0`.  The iteration count
    `((len(bytestring) - 1) // bytes_read) + 1` and the per-iteration slice
    `bytestring[start:end]` are reproduced as written (Python floor division). -/
def Fletcher.update (bytestring : List ℕ) : Fletcher :=
  let bytes_read : ℕ := 1
  let iterations : ℕ := (Int.fdiv ((bytestring.length : ℤ) - 1) (bytes_read : ℤ) + 1).toNat
  let c : ℕ × ℕ := (List.range iterations).foldl
    (fun c i =>
      let start := bytes_read * i
      let stop := bytes_read * (i + 1)
      fletcher_byte_step c (fromBytesLE (pySlice bytestring start stop)))
    (0, 0)
  let cb0 := 255 - ((c.1 + c.2) % 255)
  let cb1 := 255 - ((c.1 + cb0) % 255)
  ⟨c.1, c.2, cb0, cb1⟩

/-! ## Frame codec (apcserial.py: verify_msg_checksum, calc_checksum, create_msg_data) -/

/-- `ApcComm.verify_msg_checksum(raw_msg)`: recompute the Fletcher check bytes
    over all but the trailing two bytes and compare with the trailing
    big-endian 16-bit field. -/
def verify_msg_checksum (raw_msg : List ℕ) : Bool :=
  let msg_chksum := fromBytesBE (pyTakeLast raw_msg 2)
  let f8 := Fletcher.update (pyDropLast raw_msg 2)
  let checksum := (f8.cb0 <<< 8) + f8.cb1
  msg_chksum == checksum

/-- `ApcComm.calc_checksum(raw_msg)`: the Fletcher check value of
    `raw_msg[0:15]` (note the fixed truncation to the first 15 bytes). -/
def calc_checksum (raw_msg : List ℕ) : ℕ :=
  let f8 := Fletcher.update (pySlice raw_msg 0 15)
  (f8.cb0 <<< 8) + f8.cb1

/-- `ApcComm.create_msg_data(msg_id, offset, msg_data)`: build
    `[msg_id, offset, len] + msg_data` and append the 2-byte big-endian
    checksum computed by `calc_checksum`. -/
def create_msg_data (msg_id offset : ℕ) (msg_data : List ℕ) : List ℕ :=
  let length := msg_data.length
  let raw_msg := [msg_id, offset, length] ++ msg_data
  raw_msg ++ toBytesBE2 (calc_checksum raw_msg)

/-! ## Fletcher accumulation lemmas -/

/-- The indexed iteration of `Fletcher.update` (one-byte slices addressed by
    loop counter) is the plain left fold over the byte list. -/
lemma range_foldl_byte_slices {α : Type} (g : α → ℕ → α) :
    ∀ (bs : List ℕ) (c : α),
      (List.range bs.length).foldl (fun acc i => g acc (fromBytesLE (pySlice bs i (i + 1)))) c
        = bs.foldl g c := by
  intro bs
  induction bs with
  | nil => intro c; rfl
  | cons b t ih =>
    intro c
    have hsl : ∀ i : ℕ, pySlice (b :: t) (i + 1) (i + 1 + 1) = pySlice t i (i + 1) := by
      intro i
      unfold pySlice
      rw [List.drop_succ_cons]
      congr 1
      omega
    have hb : fromBytesLE (pySlice (b :: t) 0 1) = b := by
      simp [pySlice, fromBytesLE]
    rw [List.length_cons, List.range_succ_eq_map, List.foldl_cons, List.foldl_map]
    simp only [hsl, hb]
    exact ih (g c b)

/-- The iteration count of `Fletcher.update` equals the input length. -/
lemma fletcher_iterations_eq (n : ℕ) :
    (Int.fdiv ((n : ℤ) - 1) ((1 : ℕ) : ℤ) + 1).toNat = n := by
  simp only [Nat.cast_one, Int.fdiv_one]
  omega

/-- The check byte `cb1` produced by `Fletcher.update` is below 2^8. -/
lemma fletcher_cb1_lt (bs : List ℕ) : (Fletcher.update bs).cb1 < 2 ^ 8 := by
  have h : (Fletcher.update bs).cb1 ≤ 255 := Nat.sub_le _ _
  omega

/-- Claim C2, cb0 formula as the spec words it (with an outer `mod 255`),
    for comparison with the code: `cb0 = (255 - (c0 + c1) mod 255) mod 255`. -/
def spec_check_byte_0 (c0 c1 : ℕ) : ℕ := (255 - (c0 + c1) % 255) % 255

/-- Claim C2 (counterexample): on the one-byte input `0x00` the accumulators
    are `c0 = c1 = 0`, the code computes `cb0 = 255 - ((c0 + c1) % 255) = 255`,
    while the formula claimed by the spec, `(255 - (c0 + c1) mod 255) mod 255`,
    yields 0.  The claimed outer reduction is not performed by the code. -/
theorem fletcher_cb0_outer_mod_fails :
    (Fletcher.update [0x00]).cb0 = 255 ∧
    spec_check_byte_0 (Fletcher.update [0x00]).c0 (Fletcher.update [0x00]).c1 = 0 ∧
    (Fletcher.update [0x00]).cb0 ≠
      spec_check_byte_0 (Fletcher.update [0x00]).c0 (Fletcher.update [0x00]).c1 := by
  decide

/-- Claim C2 (amended): for every input byte sequence, `Fletcher.update`
    accumulates `c0 = (c0 + byte) % 255` and `c1 = (c1 + c0) % 255` one byte at
    a time (the left fold of `fletcher_byte_step` from `(0, 0)`), and the
    derived check bytes are `cb0 = 255 - ((c0 + c1) % 255)` and
    `cb1 = 255 - ((c0 + cb0) % 255)` — with no outer reduction mod 255, so each
    lies in `1..255`.  The 16-bit checksum embedded in a frame is
    `(cb0 <<< 8) + cb1`, which (as `cb1 < 2^8`) coincides with the claimed
    `(cb0 <<< 8) ||| cb1`. -/
theorem fletcher_update_accumulate_and_check_bytes (bs : List ℕ) :
    Fletcher.update bs =
      (let c := bs.foldl fletcher_byte_step (0, 0)
       let cb0 := 255 - ((c.1 + c.2) % 255)
       let cb1 := 255 - ((c.1 + cb0) % 255)
       { c0 := c.1, c1 := c.2, cb0 := cb0, cb1 := cb1 } : Fletcher) ∧
    ((Fletcher.update bs).cb0 <<< 8) ||| (Fletcher.update bs).cb1
      = ((Fletcher.update bs).cb0 <<< 8) + (Fletcher.update bs).cb1 := by
  constructor
  · unfold Fletcher.update
    simp only [fletcher_iterations_eq, one_mul, range_foldl_byte_slices fletcher_byte_step bs]
  · have h : (Fletcher.update bs).cb1 < 2 ^ 8 := fletcher_cb1_lt bs
    rw [Nat.shiftLeft_eq, Nat.mul_comm]
    exact (Nat.mul_add_lt_is_or h _).symm

/-- Claim C3: the Checksum Engine reproduces the three regression fixtures
    from the original protocol captures: inputs
    `7f0000000019c90013004e000001790000`, `7f0000000019cb0013004e000001790000`
    and `7f000000001c67001500530000017c0000` yield combined check bytes
    `0x3190`, `0x19a6` and `0x5eb8` respectively. -/
theorem fletcher_known_vectors :
    (let f := Fletcher.update
        [0x7f,0x00,0x00,0x00,0x00,0x19,0xc9,0x00,0x13,0x00,0x4e,0x00,0x00,0x01,0x79,0x00,0x00]
     (f.cb0 <<< 8) + f.cb1) = 0x3190 ∧
    (let f := Fletcher.update
        [0x7f,0x00,0x00,0x00,0x00,0x19,0xcb,0x00,0x13,0x00,0x4e,0x00,0x00,0x01,0x79,0x00,0x00]
     (f.cb0 <<< 8) + f.cb1) = 0x19a6 ∧
    (let f := Fletcher.update
        [0x7f,0x00,0x00,0x00,0x00,0x1c,0x67,0x00,0x15,0x00,0x53,0x00,0x00,0x01,0x7c,0x00,0x00]
     (f.cb0 <<< 8) + f.cb1) = 0x5eb8 := by
  decide

/-! ## Frame round trip (Claim C1) -/

/-- Claim C1 (counterexample): with a 13-byte payload, the frame built by
    `create_msg_data` fails `verify_msg_checksum`.  `calc_checksum` covers only
    the first 15 bytes of the 16-byte checksummed region, while verification
    recomputes over everything except the trailing two checksum bytes, so the
    embedded checksum disagrees with the verified one. -/
theorem create_msg_data_checksum_truncation :
    verify_msg_checksum (create_msg_data 0 0 (List.replicate 13 1)) = false := by
  decide

/-- Claim C1 (amended): for payloads of at most 12 bytes (so that the
    checksummed region `[msg_id, offset, len] + payload` fits in the 15 bytes
    `calc_checksum` actually covers), the frame produced by `create_msg_data`
    reproduces the message id, offset, length and payload at the wire-layout
    positions extracted by decoding, and passes `verify_msg_checksum`. -/
theorem frame_roundtrip_checksum_valid (msg_id offset : ℕ) (msg_data : List ℕ)
    (hid : msg_id < 256) (hoff : offset < 256) (hlen : msg_data.length ≤ 12)
    (hbytes : ∀ b ∈ msg_data, b < 256) :
    (create_msg_data msg_id offset msg_data)[0]? = some msg_id ∧
    (create_msg_data msg_id offset msg_data)[1]? = some offset ∧
    (create_msg_data msg_id offset msg_data)[2]? = some msg_data.length ∧
    pyDropLast (pySliceFrom (create_msg_data msg_id offset msg_data) 3) 2 = msg_data ∧
    verify_msg_checksum (create_msg_data msg_id offset msg_data) = true := by
  have hfb : ∀ v : ℕ, fromBytesBE (toBytesBE2 v) = v := by
    intro v
    show (0 * 256 + v / 256) * 256 + v % 256 = v
    omega
  refine ⟨by simp [create_msg_data], by simp [create_msg_data], by simp [create_msg_data], ?_, ?_⟩
  · show pyDropLast (List.drop 3 _) 2 = msg_data
    have h3 : List.drop 3 (create_msg_data msg_id offset msg_data)
        = msg_data ++ toBytesBE2 (calc_checksum ([msg_id, offset, msg_data.length] ++ msg_data)) := by
      simp [create_msg_data]
    rw [h3]
    unfold pyDropLast
    have hl : (msg_data ++ toBytesBE2 (calc_checksum ([msg_id, offset, msg_data.length] ++ msg_data))).length - 2
        = msg_data.length := by
      simp [toBytesBE2]
    rw [hl]
    exact List.take_left _ _
  · unfold verify_msg_checksum create_msg_data
    have hlenraw : ([msg_id, offset, msg_data.length] ++ msg_data).length = 3 + msg_data.length := by
      simp
      omega
    set raw := [msg_id, offset, msg_data.length] ++ msg_data with hraw
    set cks := toBytesBE2 (calc_checksum raw) with hcks
    have hcl : cks.length = 2 := by simp [hcks, toBytesBE2]
    have hTL : pyTakeLast (raw ++ cks) 2 = cks := by
      unfold pyTakeLast
      have : (raw ++ cks).length - 2 = raw.length := by simp [hcl]
      rw [this]
      exact List.drop_left _ _
    have hDL : pyDropLast (raw ++ cks) 2 = raw := by
      unfold pyDropLast
      have : (raw ++ cks).length - 2 = raw.length := by simp [hcl]
      rw [this]
      exact List.take_left _ _
    have hfull : pySlice raw 0 15 = raw := by
      unfold pySlice
      rw [List.drop_zero]
      exact List.take_of_length_le (by omega)
    rw [hTL, hDL, hcks, hfb]
    unfold calc_checksum
    rw [hfull]
    exact beq_self_eq_true _

/-- Witness for `frame_roundtrip_checksum_valid` at the outlet-command frame
    `create_msg_data 0x71 8 [0x40, 0x02]`. -/
theorem frame_roundtrip_checksum_valid_witness :
    (create_msg_data 0x71 8 [0x40, 0x02])[0]? = some 0x71 ∧
    (create_msg_data 0x71 8 [0x40, 0x02])[1]? = some 8 ∧
    (create_msg_data 0x71 8 [0x40, 0x02])[2]? = some ([0x40, 0x02] : List ℕ).length ∧
    pyDropLast (pySliceFrom (create_msg_data 0x71 8 [0x40, 0x02]) 3) 2 = [0x40, 0x02] ∧
    verify_msg_checksum (create_msg_data 0x71 8 [0x40, 0x02]) = true :=
  frame_roundtrip_checksum_valid 0x71 8 [0x40, 0x02]
    (by decide) (by decide) (by decide) (by decide)

/-! ## Connection state machine data model (apcserial.py, class ApcComm) -/

/-- The protocol control bytes. -/
def APC_CMD_INIT : List ℕ := [0xF7, 0xFD]

/-- The back (resend-last) control byte. -/
def APC_CMD_BACK : List ℕ := [0xF7]

/-- The reset control byte. -/
def APC_CMD_RESET : List ℕ := [0xFD]

/-- The keep-alive ("next") control byte. -/
def APC_CMD_NEXT : List ℕ := [0xFE]

/-- `CommState` enumeration. -/
inductive CommState where
  | INIT
  | INIT_RESET
  | MODE0
  | MODE1
deriving DecidableEq, Repr

/-- A value stored in the `ups_state` dictionary: Python int, float (every
    binary-point value is an exact dyadic rational), str, list of flag
    strings, bytearray slice, or datetime (recorded as days since
    2000-01-01, the representation `convert_to_datetime` starts from). -/
inductive UpsValue where
  | int (z : ℤ)
  | rat (q : ℚ)
  | str (s : String)
  | flags (l : List String)
  | bytes (b : List ℕ)
  | date (days : ℕ)
deriving DecidableEq, Repr

/-- Lookup in the insertion-ordered dictionary modelling `ups_state`. -/
def mapGet (m : List (String × UpsValue)) (k : String) : Option UpsValue :=
  match m with
  | [] => none
  | p :: rest => if p.1 == k then some p.2 else mapGet rest k

/-- Write (replace in place, or append) in the dictionary. -/
def mapSet (m : List (String × UpsValue)) (k : String) (v : UpsValue) :
    List (String × UpsValue) :=
  match m with
  | [] => [(k, v)]
  | p :: rest => if p.1 == k then (k, v) :: rest else p :: mapSet rest k v

/-- The mutable fields of an `ApcComm` instance that the protocol engine
    reads or writes (the serial port, `running` flag and thread plumbing are
    external collaborators).  `next_apc_msg` is optional because the source
    guards it against `None`, though no engine path ever stores `None`. -/
structure ApcState where
  state : CommState
  prev_state : CommState
  next_apc_msg : Option (List ℕ)
  ups_state : List (String × UpsValue)
deriving DecidableEq, Repr

/-- The state set up by `ApcComm.__init__`. -/
def initApcState : ApcState :=
  { state := CommState.INIT
    prev_state := CommState.INIT
    next_apc_msg := some APC_CMD_NEXT
    ups_state := [("comm_state", UpsValue.str "offline")] }

/-- `self.ups_state[k] = v`. -/
def upd (st : ApcState) (k : String) (v : UpsValue) : ApcState :=
  { st with ups_state := mapSet st.ups_state k v }

/-- Read `self.ups_state[k]` expecting a str (KeyError / TypeError ↦ `none`). -/
def getStr (st : ApcState) (k : String) : Option String :=
  match mapGet st.ups_state k with
  | some (UpsValue.str s) => some s
  | _ => none

/-- Read `self.ups_state[k]` expecting a bytes value (KeyError / TypeError ↦ `none`). -/
def getBytes (st : ApcState) (k : String) : Option (List ℕ) :=
  match mapGet st.ups_state k with
  | some (UpsValue.bytes b) => some b
  | _ => none

/-- `ApcComm.convert_from_bp(data, frac_pos, signed)`: big-endian integer
    divided by `2 ** frac_pos`. -/
def convert_from_bp (data : List ℕ) (frac_pos : ℕ) (signed : Bool) : ℚ :=
  let z : ℤ := if signed then fromBytesBESigned data else (fromBytesBE data : ℤ)
  (z : ℚ) / ((2 : ℚ) ^ frac_pos)

/-- One step of the challenge accumulation:
    `b0 = (b0 + x) % 255; b1 = (b1 + b0) % 255` (the pair is `(b0, b1)`). -/
def chal_step (c : ℕ × ℕ) (x : ℕ) : ℕ × ℕ :=
  let b0 := (c.1 + x) % 255
  let b1 := (c.2 + b0) % 255
  (b0, b1)

/-- `ApcComm.calculate_challenge()`: seed `b0` with the second and `b1` with
    the first series-id byte, fold the header bytes, then the serial-number
    bytes, then the first two password bytes, and emit `[1, 1, b0, b1]`.
    Missing identity fields raise (↦ `none`). -/
def calculate_challenge (st : ApcState) : Option (List ℕ) := do
  let sid ← getBytes st "series_id_raw"
  let b0 ← sid[1]?
  let b1 ← sid[0]?
  let hdr ← getBytes st "header_raw"
  let c := hdr.foldl chal_step (b0, b1)
  let ser ← getBytes st "serial_nb_raw"
  let c := ser.foldl chal_step c
  let pw ← getBytes st "password_1"
  let c := (pw.take 2).foldl chal_step c
  pure [1, 1, c.1, c.2]

/-- `ApcComm.send_apc_msg(raw_msg)`, the synchronous part: outside `MODE1` it
    returns `False` at once without touching anything; in `MODE1` it stores
    the frame as the next outgoing message (the subsequent blocking wait until
    the poll loop resets the slot to the keep-alive sentinel is a concurrent
    wait on `next_apc_msg`, covered by the trace theorems below). -/
def send_apc_msg (st : ApcState) (raw_msg : List ℕ) : Bool × ApcState :=
  if st.state ≠ CommState.MODE1 then (false, st)
  else (true, { st with next_apc_msg := some raw_msg })

/-!
Branch-by-branch embedding of the message-id dispatch of
`ApcComm.handle_apc_msg`.  Convention for bitfield flag lists: the source
seeds the dictionary entry with `[]` and then appends one name per set bit;
nothing between the seeding assignment and the appends can raise or read the
entry, so each list is accumulated in a local `l` and stored once at the
seeding point, leaving the resulting dictionary (contents and insertion
order) identical.
-/

/-- The `msg_id == 0x00` branch of `handle_apc_msg`. -/
def decode_00 (st : ApcState) (msg_data : List ℕ) : Option ApcState := do
    let b0 : ℕ ← msg_data[0]?
    let st := upd st "protocol_version" (UpsValue.int b0)
    let b1 : ℕ ← msg_data[1]?
    let st := upd st "msg_size" (UpsValue.int b1)
    let b2 : ℕ ← msg_data[2]?
    let st := upd st "num_ids" (UpsValue.int b2)
    let st := upd st "series_id" (UpsValue.int (fromBytesBE (pySlice msg_data 3 5)))
    let st := upd st "series_id_raw" (UpsValue.bytes (pySlice msg_data 3 5))
    let b5 : ℕ ← msg_data[5]?
    let st := upd st "series_data_version" (UpsValue.int b5)
    let b6 : ℕ ← msg_data[6]?
    let st := upd st "unknown_3" (UpsValue.int b6)
    let b7 : ℕ ← msg_data[7]?
    let st := upd st "unknown_4" (UpsValue.int b7)
    let st := upd st "header_raw" (UpsValue.bytes (pySlice msg_data 0 8))
    pure st

/-- The `msg_id == 0x40` branch of `handle_apc_msg`. -/
def decode_40 (st : ApcState) (msg_data : List ℕ) : Option ApcState := do
    let s ← asciiDecode (pySlice msg_data 0 14)
    let st := upd st "serial_nb" (UpsValue.str s)
    let st := upd st "serial_nb_raw" (UpsValue.bytes (pySlice msg_data 0 14))
    let st := upd st "production_date" (UpsValue.date (fromBytesBE (pySlice msg_data 14 16)))
    pure st

/-- The `msg_id == 0x41` branch of `handle_apc_msg`. -/
def decode_41 (st : ApcState) (msg_data : List ℕ) : Option ApcState := do
    let s ← asciiDecode msg_data
    pure ((upd st "ups_type" (UpsValue.str s)))

/-- The `msg_id == 0x42` branch of `handle_apc_msg`. -/
def decode_42 (st : ApcState) (msg_data : List ℕ) : Option ApcState := do
    let t ← getStr st "ups_type"
    let s ← asciiDecode msg_data
    pure ((upd st "ups_type" (UpsValue.str (t ++ s))))

/-- The `msg_id == 0x43` branch of `handle_apc_msg`. -/
def decode_43 (st : ApcState) (msg_data : List ℕ) : Option ApcState := do
    let s ← asciiDecode msg_data
    pure ((upd st "ups_sku" (UpsValue.str s)))

/-- The `msg_id == 0x44` branch of `handle_apc_msg`. -/
def decode_44 (st : ApcState) (msg_data : List ℕ) : Option ApcState := do
    let t ← getStr st "ups_sku"
    let s ← asciiDecode (pySlice msg_data 0 4)
    pure ((upd st "ups_sku" (UpsValue.str (t ++ s))))

/-- The `msg_id == 0x45` branch of `handle_apc_msg`. -/
def decode_45 (st : ApcState) (msg_data : List ℕ) : Option ApcState := do
    let s1 ← asciiDecode (pySlice msg_data 0 8)
    let st := upd st "fw_version_1" (UpsValue.str s1)
    let s2 ← asciiDecode (pySliceFrom msg_data 8)
    let st := upd st "fw_version_2" (UpsValue.str s2)
    pure st

/-- The `msg_id == 0x46` branch of `handle_apc_msg`. -/
def decode_46 (st : ApcState) (msg_data : List ℕ) : Option ApcState := do
    let s1 ← asciiDecode (pySlice msg_data 0 8)
    let st := upd st "fw_version_3" (UpsValue.str s1)
    let s2 ← asciiDecode (pySliceFrom msg_data 8)
    let st := upd st "fw_version_4" (UpsValue.str s2)
    pure st

/-- The `msg_id == 0x47` branch of `handle_apc_msg`. -/
def decode_47 (st : ApcState) (msg_data : List ℕ) : Option ApcState := do
    let st := upd st "battery_install_date" (UpsValue.date (fromBytesBE (pySlice msg_data 0 2)))
    let st := upd st "battery_lifetime" (UpsValue.int (fromBytesBE (pySlice msg_data 2 4)))
    let st := upd st "battery_near_eol_alarm_notification"
      (UpsValue.int (fromBytesBE (pySlice msg_data 4 6)))
    let st := upd st "battery_near_eol_alarm_reminder"
      (UpsValue.int (fromBytesBE (pySlice msg_data 6 8)))
    pure st

/-- The `msg_id == 0x48` branch of `handle_apc_msg`. -/
def decode_48 (st : ApcState) (msg_data : List ℕ) : Option ApcState := do
    let s ← asciiDecode msg_data
    pure ((upd st "battery_sku" (UpsValue.str s)))

/-- The `msg_id == 0x49` branch of `handle_apc_msg`. -/
def decode_49 (st : ApcState) (msg_data : List ℕ) : Option ApcState := do
    let s ← asciiDecode msg_data
    pure ((upd st "ups_name" (UpsValue.str s)))

/-- The `msg_id == 0x4a` branch of `handle_apc_msg`. -/
def decode_4a (st : ApcState) (msg_data : List ℕ) : Option ApcState := do
    let st := upd st "allowed_operating_mode" (UpsValue.int (fromBytesBE (pySlice msg_data 0 2)))
    let st := upd st "power_quality_config" (UpsValue.int (fromBytesBE (pySlice msg_data 2 4)))
    let r := fromBytesBE (pySlice msg_data 4 6)
    let st := upd st "battery_replacetest_interval_raw" (UpsValue.int r)
    let l : List String := []
    let l := if r &&& 1 == 1 then l ++ ["DISABLED"] else l
    let l := if r &&& 2 == 2 then l ++ ["STARTUP"] else l
    let l := if r &&& 4 == 4 then l ++ ["EACH 7 DAYS SINCE STARTUP"] else l
    let l := if r &&& 8 == 8 then l ++ ["EACH 14 DAYS SINCE STARTUP"] else l
    let l := if r &&& 16 == 16 then l ++ ["EACH 7 DAYS SINCE LAST"] else l
    let l := if r &&& 32 == 32 then l ++ ["EACH 14 DAYS SINCE LAST"] else l
    let st := upd st "battery_replacetest_interval" (UpsValue.flags l)
    let st := upd st "battery_replacement_due" (UpsValue.date (fromBytesBE (pySlice msg_data 6 8)))
    let st := upd st "low_runtime_alarm_config" (UpsValue.int (fromBytesBE (pySlice msg_data 8 10)))
    let st := upd st "voltage_accept_max" (UpsValue.int (fromBytesBE (pySlice msg_data 10 12)))
    let st := upd st "voltage_accept_min" (UpsValue.int (fromBytesBE (pySlice msg_data 12 14)))
    let voltage_sens := fromBytesBE (pySlice msg_data 15 16)
    let st := upd st "voltage_sensitivity_raw" (UpsValue.int voltage_sens)
    let st :=
      if voltage_sens = 1 then upd st "voltage_sensitivity" (UpsValue.str "HIGH")
      else if voltage_sens = 2 then upd st "voltage_sensitivity" (UpsValue.str "MEDIUM")
      else if voltage_sens = 4 then upd st "voltage_sensitivity" (UpsValue.str "LOW")
      else st
    pure st

/-- The `msg_id == 0x4b` branch of `handle_apc_msg`. -/
def decode_4b (st : ApcState) (msg_data : List ℕ) : Option ApcState := do
    let st := upd st "apparent_power_rating" (UpsValue.int (fromBytesBE (pySlice msg_data 0 2)))
    let st := upd st "real_power_rating" (UpsValue.int (fromBytesBE (pySlice msg_data 2 4)))
    let voltage_config := fromBytesBE (pySlice msg_data 4 6)
    let st := upd st "voltage_config_raw" (UpsValue.int voltage_config)
    let st :=
      if voltage_config = 1 then upd st "voltage_config" (UpsValue.int 100)
      else if voltage_config = 2 then upd st "voltage_config" (UpsValue.int 120)
      else if voltage_config = 4 then upd st "voltage_config" (UpsValue.int 200)
      else if voltage_config = 8 then upd st "voltage_config" (UpsValue.int 208)
      else if voltage_config = 16 then upd st "voltage_config" (UpsValue.int 220)
      else if voltage_config = 32 then upd st "voltage_config" (UpsValue.int 230)
      else if voltage_config = 64 then upd st "voltage_config" (UpsValue.int 240)
      else if voltage_config = 2048 then upd st "voltage_config" (UpsValue.int 115)
      else st
    pure st

/-- The `msg_id == 0x4c` branch of `handle_apc_msg`. -/
def decode_4c (st : ApcState) (msg_data : List ℕ) : Option ApcState := do
    let st := upd st "power_on_delay" (UpsValue.int (fromBytesBE (pySlice msg_data 0 2)))
    let st := upd st "power_off_delay" (UpsValue.int (fromBytesBE (pySlice msg_data 2 4)))
    let st := upd st "reboot_delay" (UpsValue.int (fromBytesBE (pySlice msg_data 4 8)))
    let st := upd st "runtime_minimum_return"
      (UpsValue.rat (convert_from_bp (pySlice msg_data 8 10) 0 false))
    let r := fromBytesBE (pySlice msg_data 10 12)
    let st := upd st "loadshed_config_raw" (UpsValue.int r)
    let l : List String := []
    let l := if r &&& 1 == 1 then l ++ ["USE_OFF_DELAY"] else l
    let l := if r &&& 2 == 2 then l ++ ["MANUAL_RESTART_REQUIRED"] else l
    let l := if r &&& 4 == 4 then l ++ ["RESERVED_BIT"] else l
    let l := if r &&& 8 == 8 then l ++ ["TIME_ON_BATTERY"] else l
    let l := if r &&& 16 == 16 then l ++ ["RUNTIME_REMAINING"] else l
    let l := if r &&& 16 == 16 then l ++ ["ON_OVERLOAD"] else l
    let st := upd st "loadshed_config" (UpsValue.flags l)
    let st := upd st "loadshed_runtime_remaining"
      (UpsValue.rat (convert_from_bp (pySlice msg_data 12 14) 0 false))
    let st := upd st "loadshed_runtime_limit"
      (UpsValue.rat (convert_from_bp (pySlice msg_data 14 16) 0 false))
    pure st

/-- The `msg_id == 0x4d` branch of `handle_apc_msg`. -/
def decode_4d (st : ApcState) (msg_data : List ℕ) : Option ApcState := do
    let s ← asciiDecode msg_data
    pure ((upd st "outlet_name" (UpsValue.str s)))

/-- The `msg_id == 0x4e` branch of `handle_apc_msg`. -/
def decode_4e (st : ApcState) (msg_data : List ℕ) : Option ApcState := 
    pure ((upd st "InterfaceDisable_BF" (UpsValue.int (fromBytesBE (pySlice msg_data 4 6)))))

/-- The `msg_id == 0x5c` branch of `handle_apc_msg`. -/
def decode_5c (st : ApcState) (msg_data : List ℕ) : Option ApcState := 
    pure ((upd st "CommunicationMethod_EN" (UpsValue.int (fromBytesBE (pySlice msg_data 8 10)))))

/-- The `msg_id == 0x6c` branch of `handle_apc_msg`. -/
def decode_6c (st : ApcState) (msg_data : List ℕ) : Option ApcState := do
    let r := fromBytesBE (pySlice msg_data 6 8)
    let st := upd st "battery_lifetime_status_raw" (UpsValue.int r)
    let l : List String := []
    let l := if r &&& 1 == 1 then l ++ ["OK"] else l
    let l := if r &&& 2 == 2 then l ++ ["NEAR EOL"] else l
    let l := if r &&& 4 == 4 then l ++ ["OVER EOL"] else l
    let l := if r &&& 8 == 8 then l ++ ["NEAR EOL ACK"] else l
    let l := if r &&& 16 == 16 then l ++ ["OVER EOL ACK"] else l
    let st := upd st "battery_lifetime_status" (UpsValue.flags l)
    pure st

/-- The `msg_id == 0x6d` branch of `handle_apc_msg`. -/
def decode_6d (st : ApcState) (msg_data : List ℕ) : Option ApcState := do
    let st := upd st "battery_voltage" (UpsValue.rat (convert_from_bp (pySlice msg_data 0 2) 5 true))
    let st := upd st "battery_soc" (UpsValue.rat (convert_from_bp (pySlice msg_data 2 4) 9 false))
    let st := upd st "battery_replacetest_cmd" (UpsValue.int (fromBytesBE (pySlice msg_data 4 6)))
    let r := fromBytesBE (pySlice msg_data 6 8)
    let st := upd st "battery_replacetest_status_raw" (UpsValue.int r)
    let l : List String := []
    let l := if r == 0 then l ++ ["UNKNOWN"] else l
    let l := if r &&& 1 == 1 then l ++ ["PENDING"] else l
    let l := if r &&& 2 == 2 then l ++ ["IN PROGRESS"] else l
    let l := if r &&& 4 == 4 then l ++ ["PASSED"] else l
    let l := if r &&& 8 == 8 then l ++ ["FAILED"] else l
    let l := if r &&& 16 == 16 then l ++ ["REFUSED"] else l
    let l := if r &&& 32 == 32 then l ++ ["ABORTED"] else l
    let l := if r &&& 64 == 64 then l ++ ["SOURCE PROTOCOL"] else l
    let l := if r &&& 128 == 128 then l ++ ["SOURCE UI"] else l
    let l := if r &&& 256 == 256 then l ++ ["SOURCE INTERNAL"] else l
    let l := if r &&& 512 == 512 then l ++ ["INVALID STATE"] else l
    let l := if r &&& 1024 == 1024 then l ++ ["INTERNAL FAULT"] else l
    let l := if r &&& 2048 == 2048 then l ++ ["SOC UNACCEPTABLE"] else l
    -- The source appends the following ten names to the already-stored
    -- battery_replacetest_status list from inside the runtime-calibration
    -- block below (an apparent copy-paste slip it reproduces literally);
    -- the conditions depend only on `r` and nothing in between can raise or
    -- read the entry, so they are accumulated here before the single store.
    let l := if r &&& 64 == 64 then l ++ ["SOURCE PROTOCOL"] else l
    let l := if r &&& 128 == 128 then l ++ ["SOURCE UI"] else l
    let l := if r &&& 256 == 256 then l ++ ["SOURCE INTERNAL"] else l
    let l := if r &&& 512 == 512 then l ++ ["INVALID STATE"] else l
    let l := if r &&& 1024 == 1024 then l ++ ["INTERNAL FAULT"] else l
    let l := if r &&& 2048 == 2048 then l ++ ["SOC UNACCEPTABLE"] else l
    let l := if r &&& 4096 == 4096 then l ++ ["LOAD CHANGED"] else l
    let l := if r &&& 8192 == 8192 then l ++ ["AC INPUT NOT ACCEPTABLE"] else l
    let l := if r &&& 16384 == 16384 then l ++ ["LOAD TOO LOW"] else l
    let l := if r &&& 32768 == 32768 then l ++ ["OVERCHARGE IN PROGRESS"] else l
    let st := upd st "battery_replacetest_status" (UpsValue.flags l)
    let rc := fromBytesBE (pySlice msg_data 10 12)
    let st := upd st "runtime_calibration_status_raw" (UpsValue.int rc)
    let l : List String := []
    let l := if r &&& 1 == 1 then l ++ ["PENDING"] else l
    let l := if r &&& 2 == 2 then l ++ ["IN PROGRESS"] else l
    let l := if r &&& 4 == 4 then l ++ ["PASSED"] else l
    let l := if r &&& 8 == 8 then l ++ ["FAILED"] else l
    let l := if r &&& 16 == 16 then l ++ ["REFUSED"] else l
    let l := if r &&& 32 == 32 then l ++ ["ABORTED"] else l
    let st := upd st "runtime_calibration_status" (UpsValue.flags l)
    let st := upd st "runtime_remaining"
      (UpsValue.int (pyIntTrunc (convert_from_bp (pySlice msg_data 14 16) 0 false)))
    pure st

/-- The `msg_id == 0x6e` branch of `handle_apc_msg`. -/
def decode_6e (st : ApcState) (msg_data : List ℕ) : Option ApcState := 
    pure ((upd st "runtime_remaining_2"
      (UpsValue.int (pyIntTrunc (convert_from_bp (pySlice msg_data 0 4) 0 false)))))

/-- The `msg_id == 0x6f` branch of `handle_apc_msg`. -/
def decode_6f (st : ApcState) (msg_data : List ℕ) : Option ApcState := do
    let st := upd st "temperature" (UpsValue.rat (convert_from_bp (pySlice msg_data 0 2) 7 true))
    let st := upd st "user_interface_cmd" (UpsValue.int (fromBytesBE (pySlice msg_data 2 4)))
    let r := fromBytesBE (pySlice msg_data 4 6)
    let st := upd st "user_interface_status_raw" (UpsValue.int r)
    let l : List String := []
    let l := if r &&& 1 == 1 then l ++ ["CONT. TEST IN PROGRESS"] else l
    let l := if r &&& 2 == 2 then l ++ ["AUDIBLE ALARM IN PROGRESS"] else l
    let l := if r &&& 4 == 4 then l ++ ["AUDIBLE ALARM MUTED"] else l
    let st := upd st "user_interface_status" (UpsValue.flags l)
    let st := upd st "voltage_out" (UpsValue.rat (convert_from_bp (pySlice msg_data 6 8) 6 false))
    let st := upd st "current_out" (UpsValue.rat (convert_from_bp (pySlice msg_data 8 10) 5 false))
    let st := upd st "frequency_out" (UpsValue.rat (convert_from_bp (pySlice msg_data 10 12) 7 false))
    let st := upd st "apparent_power_pctused"
      (UpsValue.rat (convert_from_bp (pySlice msg_data 12 14) 8 false))
    let st := upd st "real_power_pctused"
      (UpsValue.rat (convert_from_bp (pySlice msg_data 14 16) 8 false))
    pure st

/-- The `msg_id == 0x70` branch of `handle_apc_msg`. -/
def decode_70 (st : ApcState) (msg_data : List ℕ) : Option ApcState := do
    let r := fromBytesBE (pySlice msg_data 2 4)
    let st := upd st "input_status_raw" (UpsValue.int r)
    let l : List String := []
    let l := if r &&& 1 == 1 then l ++ ["ACCEPTABLE"] else l
    let l := if r &&& 2 == 2 then l ++ ["PENDING ACCEPTABLE"] else l
    let l := if r &&& 4 == 4 then l ++ ["LOW VOLTAGE"] else l
    let l := if r &&& 8 == 8 then l ++ ["HIGH VOLTAGE"] else l
    let l := if r &&& 16 == 16 then l ++ ["DISTORTED"] else l
    let l := if r &&& 32 == 32 then l ++ ["BOOST"] else l
    let l := if r &&& 64 == 64 then l ++ ["TRIM"] else l
    let l := if r &&& 128 == 128 then l ++ ["LOW FREQUENCY"] else l
    let l := if r &&& 256 == 256 then l ++ ["HIGH FREQUENCY"] else l
    let l := if r &&& 512 == 512 then l ++ ["PHASE NOT LOCKED"] else l
    let l := if r &&& 1024 == 1024 then l ++ ["DELTA PHASE OUT OF RANGE"] else l
    let l := if r &&& 2048 == 2048 then l ++ ["NEUTRAL NOT CONNECTED"] else l
    let l := if r &&& 4096 == 4096 then l ++ ["NOT ACCEPTABLE"] else l
    let l := if r &&& 8192 == 8192 then l ++ ["PLUG RATING EXCEEDED"] else l
    let st := upd st "input_status" (UpsValue.flags l)
    let st := upd st "voltage_in" (UpsValue.rat (convert_from_bp (pySlice msg_data 4 6) 6 false))
    let st := upd st "frequency_in" (UpsValue.rat (convert_from_bp (pySlice msg_data 6 8) 7 false))
    let st := upd st "green_mode" (UpsValue.int (fromBytesBESigned (pySlice msg_data 8 10)))
    let pe := fromBytesBE (pySlice msg_data 10 12)
    let st := upd st "powsys_error_raw" (UpsValue.int pe)
    let l : List String := []
    let l := if pe &&& 1 == 1 then l ++ ["OUTPUT OVERLOAD"] else l
    let l := if pe &&& 2 == 2 then l ++ ["OUTPUT SHORT CIRCUIT"] else l
    let l := if pe &&& 4 == 4 then l ++ ["OUTPUT OVERVOLTAGE"] else l
    let l := if pe &&& 8 == 8 then l ++ ["TRANSFORMER DC IMBALANCE"] else l
    let l := if pe &&& 16 == 16 then l ++ ["OVERTEMPERATURE"] else l
    let l := if pe &&& 32 == 32 then l ++ ["BACKFEEDING"] else l
    let l := if pe &&& 64 == 64 then l ++ ["AVR RELAY FAULT"] else l
    let l := if pe &&& 128 == 128 then l ++ ["PFC INPUT RELAY FAULT"] else l
    let l := if pe &&& 256 == 256 then l ++ ["OUTPUT RELAY FAULT"] else l
    let l := if pe &&& 512 == 512 then l ++ ["BYPASS RELAY FAULT"] else l
    let l := if pe &&& 1024 == 1024 then l ++ ["FAN FAULT"] else l
    let l := if pe &&& 2048 == 2048 then l ++ ["PFC FAULT"] else l
    let l := if pe &&& 4096 == 4096 then l ++ ["DC BUS OVERVOLTAGE"] else l
    let l := if pe &&& 4096 == 4096 then l ++ ["INVERTER FAULT"] else l
    let st := upd st "powsys_error" (UpsValue.flags l)
    let ge := fromBytesBE (pySlice msg_data 12 14)
    let st := upd st "general_error_raw" (UpsValue.int ge)
    let l : List String := []
    let l := if ge &&& 1 == 1 then l ++ ["SITE WIRING FAULT"] else l
    let l := if ge &&& 2 == 2 then l ++ ["EEPROM ERROR"] else l
    let l := if ge &&& 4 == 4 then l ++ ["AD CONVERTER ERROR"] else l
    let l := if ge &&& 8 == 8 then l ++ ["LOGIC PSU FAULT"] else l
    let l := if ge &&& 16 == 16 then l ++ ["INTERNAL COMM FAULT"] else l
    let l := if ge &&& 32 == 32 then l ++ ["UI BUTTON FAULT"] else l
    let l := if ge &&& 128 == 128 then l ++ ["EPO ACTIVE"] else l
    let st := upd st "general_error" (UpsValue.flags l)
    let be := fromBytesBE (pySlice msg_data 14 16)
    let st := upd st "battery_error_raw" (UpsValue.int be)
    let l : List String := []
    let l := if be &&& 1 == 1 then l ++ ["DISCONNECTED"] else l
    let l := if be &&& 2 == 2 then l ++ ["OVERVOLTAGE"] else l
    let l := if be &&& 4 == 4 then l ++ ["NEEDS REPLACEMENT"] else l
    let l := if be &&& 8 == 8 then l ++ ["OVERTEMPERATURE"] else l
    let l := if be &&& 16 == 16 then l ++ ["CHARGER FAULT"] else l
    let l := if be &&& 32 == 32 then l ++ ["TEMP SENSOR FAULT"] else l
    let l := if be &&& 64 == 64 then l ++ ["BATTERY BUS SOFT START FAULT"] else l
    let l := if be &&& 128 == 128 then l ++ ["HIGH TEMPERATURE"] else l
    let l := if be &&& 256 == 256 then l ++ ["GENERAL ERROR"] else l
    let l := if be &&& 512 == 512 then l ++ ["COMM ERROR"] else l
    let st := upd st "battery_error" (UpsValue.flags l)
    pure st

/-- The `msg_id == 0x71` branch of `handle_apc_msg`. -/
def decode_71 (st : ApcState) (msg_data : List ℕ) : Option ApcState := do
    let st := upd st "ups_cmd" (UpsValue.int (fromBytesBE (pySlice msg_data 0 2)))
    let st := upd st "outlet_cmd" (UpsValue.int (fromBytesBE (pySlice msg_data 8 10)))
    pure st

/-- The `msg_id == 0x72` branch of `handle_apc_msg`. -/
def decode_72 (st : ApcState) (msg_data : List ℕ) : Option ApcState := do
    let r := fromBytesBE (pySlice msg_data 0 2)
    let st := upd st "outlet_status_raw" (UpsValue.int r)
    let l : List String := []
    let l := if r &&& 1 == 1 then l ++ ["OUTLET ON"] else l
    let l := if r &&& 2 == 2 then l ++ ["OUTLET OFF"] else l
    let l := if r &&& 4 == 4 then l ++ ["REBOOTING"] else l
    let l := if r &&& 8 == 8 then l ++ ["SHUTTING DOWN"] else l
    let l := if r &&& 16 == 16 then l ++ ["SLEEPING"] else l
    let l := if r &&& 128 == 128 then l ++ ["OUTLET OVERLOAD"] else l
    let l := if r &&& 256 == 256 then l ++ ["PENDING OUTLET ON"] else l
    let l := if r &&& 512 == 512 then l ++ ["PENDING OUTLET OFF"] else l
    let l := if r &&& 1024 == 1024 then l ++ ["WAIT ON AC"] else l
    let l := if r &&& 2048 == 2048 then l ++ ["WAIT ON MIN RUNTIME"] else l
    let l := if r &&& 4096 == 4096 then l ++ ["LOW RUNTIME"] else l
    let st := upd st "outlet_status" (UpsValue.flags l)
    pure st

/-- The `msg_id == 0x76` branch of `handle_apc_msg`. -/
def decode_76 (st : ApcState) (msg_data : List ℕ) : Option ApcState := do
    let r := fromBytesBE (pySlice msg_data 8 10)
    let st := upd st "ups_status_raw" (UpsValue.int r)
    let l : List String := []
    let l := if r &&& 1 == 1 then l ++ ["RESERVED BIT"] else l
    let l := if r &&& 2 == 2 then l ++ ["ONLINE"] else l
    let l := if r &&& 4 == 4 then l ++ ["ON BATTERY"] else l
    let l := if r &&& 8 == 8 then l ++ ["BYPASS ON"] else l
    let l := if r &&& 16 == 16 then l ++ ["OUTPUT OFF"] else l
    let l := if r &&& 32 == 32 then l ++ ["FAULT"] else l
    let l := if r &&& 64 == 64 then l ++ ["INPUT BAD"] else l
    let l := if r &&& 128 == 128 then l ++ ["TESTING"] else l
    let l := if r &&& 256 == 256 then l ++ ["PENDING OUTPUT ON"] else l
    let l := if r &&& 512 == 512 then l ++ ["PENDING OUTPUT OFF"] else l
    let l := if r &&& 8192 == 8192 then l ++ ["GREEN MODE"] else l
    let l := if r &&& 16384 == 16384 then l ++ ["InformationalAlert"] else l
    let st := upd st "ups_status" (UpsValue.flags l)
    let c := fromBytesBE (pySlice msg_data 10 12)
    let st := upd st "status_chg_cause_raw" (UpsValue.int c)
    let st := if c = 0 then upd st "status_chg_cause" (UpsValue.str "SystemInitialization") else st
    let st := if c = 1 then upd st "status_chg_cause" (UpsValue.str "HighInputVoltage") else st
    let st := if c = 2 then upd st "status_chg_cause" (UpsValue.str "LowInputVoltage") else st
    let st := if c = 3 then upd st "status_chg_cause" (UpsValue.str "DistortedInput") else st
    let st := if c = 4 then upd st "status_chg_cause" (UpsValue.str "RapidChangeOfInputVoltage") else st
    let st := if c = 5 then upd st "status_chg_cause" (UpsValue.str "HighInputFrequency") else st
    let st := if c = 6 then upd st "status_chg_cause" (UpsValue.str "LowInputFrequency") else st
    let st := if c = 7 then upd st "status_chg_cause" (UpsValue.str "FreqAndOrPhaseDifference") else st
    let st := if c = 8 then upd st "status_chg_cause" (UpsValue.str "AcceptableInput") else st
    let st := if c = 9 then upd st "status_chg_cause" (UpsValue.str "AutomaticTest") else st
    let st := if c = 10 then upd st "status_chg_cause" (UpsValue.str "TestEnded") else st
    let st := if c = 11 then upd st "status_chg_cause" (UpsValue.str "LocalUICommand") else st
    let st := if c = 12 then upd st "status_chg_cause" (UpsValue.str "ProtocolCommand") else st
    let st := if c = 13 then upd st "status_chg_cause" (UpsValue.str "LowBatteryVoltage") else st
    let st := if c = 14 then upd st "status_chg_cause" (UpsValue.str "GeneralError") else st
    let st := if c = 15 then upd st "status_chg_cause" (UpsValue.str "PowerSystemError") else st
    let st := if c = 16 then upd st "status_chg_cause" (UpsValue.str "BatterySystemError") else st
    let st := if c = 17 then upd st "status_chg_cause" (UpsValue.str "ErrorCleared") else st
    let st := if c = 18 then upd st "status_chg_cause" (UpsValue.str "AutomaticRestart") else st
    let st := if c = 19 then upd st "status_chg_cause" (UpsValue.str "DistortedInverterOutput") else st
    let st := if c = 20 then upd st "status_chg_cause" (UpsValue.str "InverterOutputAcceptable") else st
    let st := if c = 21 then upd st "status_chg_cause" (UpsValue.str "EPOInterface") else st
    let st := if c = 22 then upd st "status_chg_cause" (UpsValue.str "InputPhaseDeltaOutOfRange") else st
    let st := if c = 23 then upd st "status_chg_cause" (UpsValue.str "InputNeutralNotConnected") else st
    let st := if c = 24 then upd st "status_chg_cause" (UpsValue.str "ATSTransfer") else st
    let st := if c = 25 then upd st "status_chg_cause" (UpsValue.str "ConfigurationChange") else st
    let st := if c = 26 then upd st "status_chg_cause" (UpsValue.str "AlertAsserted") else st
    let st := if c = 27 then upd st "status_chg_cause" (UpsValue.str "AlertCleared") else st
    let st := if c = 28 then upd st "status_chg_cause" (UpsValue.str "PlugRatingExceeded") else st
    let st := if c = 29 then upd st "status_chg_cause" (UpsValue.str "OutletGroupStateChange") else st
    let st := if c = 30 then upd st "status_chg_cause" (UpsValue.str "FailureBypassExpired") else st
    pure st

/-- The `msg_id == 0x79` branch of `handle_apc_msg`. -/
def decode_79 (st : ApcState) (msg_data : List ℕ) : Option ApcState := do
    let st := upd st "temperature_2" (UpsValue.rat (convert_from_bp (pySlice msg_data 4 6) 7 true))
    let st := upd st "humidity_pct" (UpsValue.rat (convert_from_bp (pySlice msg_data 6 8) 9 false))
    let st := upd st "temperature_3" (UpsValue.rat (convert_from_bp (pySlice msg_data 14 16) 7 true))
    pure st

/-- The `msg_id == 0x7a` branch of `handle_apc_msg`. -/
def decode_7a (st : ApcState) (msg_data : List ℕ) : Option ApcState := 
    pure ((upd st "humidity_pct_2"
      (UpsValue.rat (convert_from_bp (pySlice msg_data 0 2) 9 false))))

/-- The `msg_id == 0x7e` branch of `handle_apc_msg`. -/
def decode_7e (st : ApcState) (msg_data : List ℕ) : Option ApcState := do
    let st := upd st "password_1" (UpsValue.bytes (pySlice msg_data 8 12))
    let st := upd st "password_2" (UpsValue.bytes (pySlice msg_data 12 16))
    pure st

/-- The `msg_id == 0x7f` branch of `handle_apc_msg`. -/
def decode_7f (st : ApcState) (msg_data nested_rcv : List ℕ) :
    Option (ApcState ⊕ ApcState) := do
    let st := upd st "challenge_status" (UpsValue.bytes (pySlice msg_data 14 16))
    if st.state = CommState.MODE0 then do
      let challenge ← calculate_challenge st
      let _challenge_msg := create_msg_data 0x7e 12 challenge
      let rcv_data := nested_rcv
      if rcv_data[0]? = some 0x7e then
        pure (Sum.inl { st with state := CommState.MODE1 })
      else
        pure (Sum.inr st)
    else
      pure (Sum.inl st)

/-- The message-id dispatch block of `ApcComm.handle_apc_msg` (the `elif`
    chain after checksum verification).  Each branch body is its own
    definition above.  `nested_rcv` is the response `receive_msg()` returns
    inside the `msg_id == 0x7f` handshake branch.  The result is `none` on
    an uncaught exception, `Sum.inr st` for the early `return False` of a
    failed challenge exchange, and `Sum.inl st` when control falls through
    to the default request-next tail. -/
def decode_msg (st : ApcState) (msg_id : ℕ) (msg_data : List ℕ) (nested_rcv : List ℕ) :
    Option (ApcState ⊕ ApcState) :=
  if msg_id = 0x00 then (decode_00 st msg_data).map Sum.inl
  else if msg_id = 0x40 then (decode_40 st msg_data).map Sum.inl
  else if msg_id = 0x41 then (decode_41 st msg_data).map Sum.inl
  else if msg_id = 0x42 then (decode_42 st msg_data).map Sum.inl
  else if msg_id = 0x43 then (decode_43 st msg_data).map Sum.inl
  else if msg_id = 0x44 then (decode_44 st msg_data).map Sum.inl
  else if msg_id = 0x45 then (decode_45 st msg_data).map Sum.inl
  else if msg_id = 0x46 then (decode_46 st msg_data).map Sum.inl
  else if msg_id = 0x47 then (decode_47 st msg_data).map Sum.inl
  else if msg_id = 0x48 then (decode_48 st msg_data).map Sum.inl
  else if msg_id = 0x49 then (decode_49 st msg_data).map Sum.inl
  else if msg_id = 0x4a then (decode_4a st msg_data).map Sum.inl
  else if msg_id = 0x4b then (decode_4b st msg_data).map Sum.inl
  else if msg_id = 0x4c then (decode_4c st msg_data).map Sum.inl
  else if msg_id = 0x4d then (decode_4d st msg_data).map Sum.inl
  else if msg_id = 0x4e then (decode_4e st msg_data).map Sum.inl
  else if msg_id = 0x5c then (decode_5c st msg_data).map Sum.inl
  else if msg_id = 0x6c then (decode_6c st msg_data).map Sum.inl
  else if msg_id = 0x6d then (decode_6d st msg_data).map Sum.inl
  else if msg_id = 0x6e then (decode_6e st msg_data).map Sum.inl
  else if msg_id = 0x6f then (decode_6f st msg_data).map Sum.inl
  else if msg_id = 0x70 then (decode_70 st msg_data).map Sum.inl
  else if msg_id = 0x71 then (decode_71 st msg_data).map Sum.inl
  else if msg_id = 0x72 then (decode_72 st msg_data).map Sum.inl
  else if msg_id = 0x76 then (decode_76 st msg_data).map Sum.inl
  else if msg_id = 0x79 then (decode_79 st msg_data).map Sum.inl
  else if msg_id = 0x7a then (decode_7a st msg_data).map Sum.inl
  else if msg_id = 0x7e then (decode_7e st msg_data).map Sum.inl
  else if msg_id = 0x7f then decode_7f st msg_data nested_rcv
  else pure (Sum.inl st)

/-- `ApcComm.handle_apc_msg(raw_msg)`.  Empty or `None` input queues the
    reset control byte and returns `False`; a non-empty buffer failing
    checksum verification queues the back control byte and returns `True`;
    otherwise the message is dispatched on its id and, unless the `0x7f`
    challenge exchange fails, the keep-alive control byte is queued and
    `True` returned.  `none` models an uncaught exception. -/
def handle_apc_msg (st : ApcState) (raw_opt : Option (List ℕ)) (nested_rcv : List ℕ) :
    Option (Bool × ApcState) :=
  match raw_opt with
  | some raw_msg =>
    if raw_msg.length > 0 then do
      let msg_id ← raw_msg[0]?
      let msg_data := pySliceMid raw_msg
      if ¬ verify_msg_checksum raw_msg then
        pure (true, { st with next_apc_msg := some APC_CMD_BACK })
      else do
        match ← decode_msg st msg_id msg_data nested_rcv with
        | Sum.inr st2 => pure (false, st2)
        | Sum.inl st2 => pure (true, { st2 with next_apc_msg := some APC_CMD_NEXT })
    else
      some (false, { st with next_apc_msg := some APC_CMD_RESET })
  | none =>
    some (false, { st with next_apc_msg := some APC_CMD_RESET })

/-- The point of the `MODE1` branch of `ApcComm.run` reached right after the
    write/receive exchange: the pending-command slot has just been reset to
    the keep-alive sentinel (guarded against `None`), and the received data
    `rcv` has not yet been handled. -/
def mode1_after_exchange (st : ApcState) (_rcv : List ℕ) : ApcState :=
  if st.next_apc_msg.isSome then { st with next_apc_msg := some APC_CMD_NEXT } else st

/-- The tail of every `ApcComm.run` iteration: on a state change, mark the
    externally visible `comm_state` online (for `MODE0`/`MODE1`) or offline,
    then record `prev_state = state`. -/
def cycle_post (s : ApcState) : ApcState :=
  let s :=
    if s.state ≠ s.prev_state then
      upd s "comm_state"
        (UpsValue.str
          (if s.state = CommState.MODE0 ∨ s.state = CommState.MODE1 then "online" else "offline"))
    else s
  { s with prev_state := s.state }

/-- One iteration of the `ApcComm.run` poll loop: the per-state
    write/receive/handle cycle followed by the `comm_state` bookkeeping of
    `cycle_post`.  `rcv` is what `receive_msg()` returns for the cycle and
    `nested_rcv` what it returns inside a `0x7f` challenge exchange; `none`
    models an uncaught exception escaping the loop. -/
def stepCycle (st : ApcState) (rcv : List ℕ) (nested_rcv : List ℕ) : Option ApcState :=
  let core : Option ApcState :=
    match st.state with
    | CommState.INIT =>
      (handle_apc_msg st (some rcv) nested_rcv).map
        (fun r => { r.2 with state := if r.1 then CommState.MODE0 else CommState.INIT_RESET })
    | CommState.INIT_RESET =>
      (handle_apc_msg st (some rcv) nested_rcv).map
        (fun r => { r.2 with state := if r.1 then CommState.MODE0 else CommState.INIT })
    | CommState.MODE0 =>
      (handle_apc_msg st (some rcv) nested_rcv).map
        (fun r => if r.1 then r.2 else { r.2 with state := CommState.INIT })
    | CommState.MODE1 =>
      let st1 := mode1_after_exchange st rcv
      (handle_apc_msg st1 (some rcv) nested_rcv).map
        (fun r => if r.1 then r.2 else { r.2 with state := CommState.INIT })
  core.map cycle_post

/-- The trace of the poll loop from `st` when every `receive_msg()` call
    returns the empty byte sequence. -/
def emptyTraceFrom (st : ApcState) : ℕ → Option ApcState
  | 0 => some st
  | n + 1 => (emptyTraceFrom st n).bind (fun s => stepCycle s [] [])

/-! ## Basic facts about the poll cycle -/

/-- `cycle_post` never changes the connection state. -/
lemma cycle_post_state (s : ApcState) : (cycle_post s).state = s.state := by
  unfold cycle_post
  split <;> simp [upd]

/-- `cycle_post` never changes the pending-command slot. -/
lemma cycle_post_next (s : ApcState) : (cycle_post s).next_apc_msg = s.next_apc_msg := by
  unfold cycle_post
  split <;> simp [upd]

/-- `handle_apc_msg` on a `None` buffer: reset queued, failure returned. -/
lemma handle_none_eq (st : ApcState) (nested : List ℕ) :
    handle_apc_msg st none nested
      = some (false, { st with next_apc_msg := some APC_CMD_RESET }) := rfl

/-- `handle_apc_msg` on an empty buffer: reset queued, failure returned. -/
lemma handle_empty_eq (st : ApcState) (nested : List ℕ) :
    handle_apc_msg st (some []) nested
      = some (false, { st with next_apc_msg := some APC_CMD_RESET }) := rfl

/-- `handle_apc_msg` on a non-empty buffer failing checksum verification:
    the back control byte is queued and success is returned. -/
lemma handle_mismatch_eq (st : ApcState) (raw nested : List ℕ)
    (hne : raw ≠ []) (hv : verify_msg_checksum raw = false) :
    handle_apc_msg st (some raw) nested
      = some (true, { st with next_apc_msg := some APC_CMD_BACK }) := by
  match raw, hne with
  | a :: l, _ =>
    simp [handle_apc_msg, hv]

/-! ## Claim theorems for the challenge, mailbox and state machine -/

/-- Claim C4: for all identity inputs (two series-id bytes, 8 header bytes,
    14 serial-number bytes, at least 2 password-fragment bytes) stored in
    `ups_state`, `calculate_challenge` seeds `b0` with the second series-id
    byte and `b1` with the first, folds every byte of the header bytes, then
    the serial-number bytes, then the first 2 password bytes, in that exact
    order, through `b0 = (b0 + x) % 255; b1 = (b1 + b0) % 255`, and returns
    the 4-byte response `[0x01, 0x01, b0, b1]`. -/
theorem calculate_challenge_spec (st : ApcState) (s0 s1 : ℕ) (hdr ser pw : List ℕ)
    (hsid : getBytes st "series_id_raw" = some [s0, s1])
    (hhdr : getBytes st "header_raw" = some hdr) (hhl : hdr.length = 8)
    (hser : getBytes st "serial_nb_raw" = some ser) (hsl : ser.length = 14)
    (hpw : getBytes st "password_1" = some pw) (hpl : 2 ≤ pw.length) :
    calculate_challenge st =
      some [1, 1, ((hdr ++ ser ++ pw.take 2).foldl chal_step (s1, s0)).1,
                  ((hdr ++ ser ++ pw.take 2).foldl chal_step (s1, s0)).2] := by
  unfold calculate_challenge
  rw [hsid, hhdr, hser, hpw]
  simp [List.foldl_append]

/-- A state carrying a complete concrete Identity Fingerprint. -/
def challenge_example_state : ApcState :=
  upd (upd (upd (upd initApcState
    "series_id_raw" (UpsValue.bytes [0x10, 0x20]))
    "header_raw" (UpsValue.bytes [1, 2, 3, 4, 5, 6, 7, 8]))
    "serial_nb_raw" (UpsValue.bytes [9, 10, 11, 12, 13, 14, 15, 16, 17, 18, 19, 20, 21, 22]))
    "password_1" (UpsValue.bytes [30, 31, 32, 33])

/-- Witness for `calculate_challenge_spec` on `challenge_example_state`. -/
theorem calculate_challenge_spec_witness :
    calculate_challenge challenge_example_state =
      some [1, 1,
        (([1, 2, 3, 4, 5, 6, 7, 8] ++ [9, 10, 11, 12, 13, 14, 15, 16, 17, 18, 19, 20, 21, 22]
            ++ List.take 2 [30, 31, 32, 33]).foldl chal_step (0x20, 0x10)).1,
        (([1, 2, 3, 4, 5, 6, 7, 8] ++ [9, 10, 11, 12, 13, 14, 15, 16, 17, 18, 19, 20, 21, 22]
            ++ List.take 2 [30, 31, 32, 33]).foldl chal_step (0x20, 0x10)).2] :=
  calculate_challenge_spec challenge_example_state 0x10 0x20
    [1, 2, 3, 4, 5, 6, 7, 8] [9, 10, 11, 12, 13, 14, 15, 16, 17, 18, 19, 20, 21, 22]
    [30, 31, 32, 33] (by decide) (by decide) (by decide) (by decide) (by decide)
    (by decide) (by decide)

/-- Claim C5: in every `MODE1` poll cycle, at the point right after the
    write/receive exchange completes (`run`, end of line 120), the
    pending-command slot holds the keep-alive sentinel, whatever byte
    sequence `rcv` the exchange returned — valid, empty or
    checksum-mismatched alike.  (The slot is provably never `None`; the
    source only guards it defensively.) -/
theorem mode1_slot_reset_after_exchange (st : ApcState) (rcv : List ℕ)
    (h : st.next_apc_msg.isSome = true) :
    (mode1_after_exchange st rcv).next_apc_msg = some APC_CMD_NEXT := by
  unfold mode1_after_exchange
  simp [h]

/-- Witness for `mode1_slot_reset_after_exchange` at the initial state and a
    checksum-mismatched response. -/
theorem mode1_slot_reset_after_exchange_witness :
    (mode1_after_exchange { initApcState with state := CommState.MODE1 } [0, 0, 0]).next_apc_msg
      = some APC_CMD_NEXT :=
  mode1_slot_reset_after_exchange { initApcState with state := CommState.MODE1 } [0, 0, 0]
    (by decide)

/-- Claim C6: `handle_apc_msg` returns failure on a `None` or empty buffer
    (queueing the reset control byte); on a non-empty buffer whose checksum
    verification fails it queues the back (resend-last) control byte and
    returns success, so a poll cycle in `MODE0` or `MODE1` neither advances
    nor resets the connection state on a checksum mismatch. -/
theorem handle_apc_msg_empty_and_mismatch :
    (∀ (st : ApcState) (nested : List ℕ),
        handle_apc_msg st none nested
          = some (false, { st with next_apc_msg := some APC_CMD_RESET })) ∧
    (∀ (st : ApcState) (nested : List ℕ),
        handle_apc_msg st (some []) nested
          = some (false, { st with next_apc_msg := some APC_CMD_RESET })) ∧
    (∀ (st : ApcState) (raw nested : List ℕ),
        raw ≠ [] → verify_msg_checksum raw = false →
        handle_apc_msg st (some raw) nested
          = some (true, { st with next_apc_msg := some APC_CMD_BACK })) ∧
    (∀ (st : ApcState) (raw nested : List ℕ),
        st.state = CommState.MODE0 → raw ≠ [] → verify_msg_checksum raw = false →
        (stepCycle st raw nested).map ApcState.state = some CommState.MODE0) ∧
    (∀ (st : ApcState) (raw nested : List ℕ),
        st.state = CommState.MODE1 → raw ≠ [] → verify_msg_checksum raw = false →
        (stepCycle st raw nested).map ApcState.state = some CommState.MODE1) := by
  refine ⟨handle_none_eq, handle_empty_eq, handle_mismatch_eq, ?_, ?_⟩
  · intro st raw nested hst hne hv
    have hm := handle_mismatch_eq st raw nested hne hv
    simp only [stepCycle, hst, hm]
    simp [cycle_post_state, hst]
  · intro st raw nested hst hne hv
    have h1 : (mode1_after_exchange st raw).state = CommState.MODE1 := by
      unfold mode1_after_exchange
      split <;> simp [hst]
    have hm := handle_mismatch_eq (mode1_after_exchange st raw) raw nested hne hv
    simp only [stepCycle, hst, hm]
    simp [cycle_post_state, h1]

/-- Witness for `handle_apc_msg_empty_and_mismatch` on the initial state and
    the checksum-mismatched buffer `[0, 0, 0]`. -/
theorem handle_apc_msg_empty_and_mismatch_witness :
    handle_apc_msg initApcState none []
      = some (false, { initApcState with next_apc_msg := some APC_CMD_RESET }) ∧
    handle_apc_msg initApcState (some []) []
      = some (false, { initApcState with next_apc_msg := some APC_CMD_RESET }) ∧
    handle_apc_msg initApcState (some [0, 0, 0]) []
      = some (true, { initApcState with next_apc_msg := some APC_CMD_BACK }) ∧
    (stepCycle { initApcState with state := CommState.MODE0 } [0, 0, 0] []).map ApcState.state
      = some CommState.MODE0 ∧
    (stepCycle { initApcState with state := CommState.MODE1 } [0, 0, 0] []).map ApcState.state
      = some CommState.MODE1 :=
  ⟨handle_apc_msg_empty_and_mismatch.1 initApcState [],
   handle_apc_msg_empty_and_mismatch.2.1 initApcState [],
   handle_apc_msg_empty_and_mismatch.2.2.1 initApcState [0, 0, 0] [] (by decide) (by decide),
   handle_apc_msg_empty_and_mismatch.2.2.2.1 { initApcState with state := CommState.MODE0 }
     [0, 0, 0] [] (by decide) (by decide) (by decide),
   handle_apc_msg_empty_and_mismatch.2.2.2.2 { initApcState with state := CommState.MODE1 }
     [0, 0, 0] [] (by decide) (by decide) (by decide)⟩

/-! ## All-empty-response traces (Claims C7 and C10) -/

/-- The state after the first poll cycle from `initApcState` under an
    all-empty transport. -/
def oscillA : ApcState :=
  { state := CommState.INIT_RESET
    prev_state := CommState.INIT_RESET
    next_apc_msg := some APC_CMD_RESET
    ups_state := [("comm_state", UpsValue.str "offline")] }

/-- The state after the second poll cycle from `initApcState` under an
    all-empty transport. -/
def oscillB : ApcState :=
  { state := CommState.INIT
    prev_state := CommState.INIT
    next_apc_msg := some APC_CMD_RESET
    ups_state := [("comm_state", UpsValue.str "offline")] }

lemma step_init_empty : stepCycle initApcState [] [] = some oscillA := by decide

lemma step_oscillA : stepCycle oscillA [] [] = some oscillB := by decide

lemma step_oscillB : stepCycle oscillB [] [] = some oscillA := by decide

/-- Under an all-empty transport the trace from `initApcState` reaches
    `oscillA` after every odd and `oscillB` after every even number of
    cycles. -/
lemma emptyTrace_init_oscillates :
    ∀ n : ℕ, emptyTraceFrom initApcState (n + 1)
      = some (if n % 2 = 0 then oscillA else oscillB) := by
  intro n
  induction n with
  | zero =>
    show (emptyTraceFrom initApcState 0).bind (fun s => stepCycle s [] []) = _
    simp [emptyTraceFrom, step_init_empty]
  | succ k ih =>
    show (emptyTraceFrom initApcState (k + 1)).bind (fun s => stepCycle s [] []) = _
    rw [ih]
    rcases Nat.mod_two_eq_zero_or_one k with h | h
    · have h2 : (k + 1) % 2 = 1 := by omega
      simp [h, h2, step_oscillA]
    · have h2 : (k + 1) % 2 = 0 := by omega
      simp [h, h2, step_oscillB]

/-- Claim C7: starting in `Init`, if every receive returns the empty byte
    sequence, the state machine steps to `InitReset` after the first cycle
    and thereafter alternates `InitReset → Init → InitReset` forever; the
    states `Mode0` and `Mode1` are never reached. -/
theorem init_oscillation_on_empty_responses (n : ℕ) :
    ∃ st, emptyTraceFrom initApcState n = some st ∧
      st.state = (if n % 2 = 0 then CommState.INIT else CommState.INIT_RESET) ∧
      st.state ≠ CommState.MODE0 ∧ st.state ≠ CommState.MODE1 := by
  cases n with
  | zero => exact ⟨initApcState, rfl, by decide, by decide, by decide⟩
  | succ k =>
    refine ⟨if k % 2 = 0 then oscillA else oscillB, emptyTrace_init_oscillates k, ?_, ?_, ?_⟩
    · rcases Nat.mod_two_eq_zero_or_one k with h | h
      · have h2 : (k + 1) % 2 = 1 := by omega
        simp [h, h2, oscillA]
      · have h2 : (k + 1) % 2 = 0 := by omega
        simp [h, h2, oscillB]
    · rcases Nat.mod_two_eq_zero_or_one k with h | h <;> simp [h, oscillA, oscillB]
    · rcases Nat.mod_two_eq_zero_or_one k with h | h <;> simp [h, oscillA, oscillB]

/-- One all-empty cycle from a non-`MODE1` recovery state stays in the
    `INIT`/`INIT_RESET` pair with the reset control byte queued. -/
lemma step_empty_invariant (s : ApcState)
    (h : s.state = CommState.INIT ∨ s.state = CommState.INIT_RESET) :
    ∃ s2, stepCycle s [] [] = some s2 ∧
      (s2.state = CommState.INIT ∨ s2.state = CommState.INIT_RESET) ∧
      s2.next_apc_msg = some APC_CMD_RESET := by
  rcases h with h | h <;>
  · refine ⟨_, by unfold stepCycle; rw [h, handle_empty_eq]; rfl, ?_, ?_⟩ <;>
      simp [cycle_post_state, cycle_post_next]

/-- One all-empty cycle from `MODE1` falls back to `INIT` with the reset
    control byte queued. -/
lemma step_mode1_empty (s : ApcState) (h : s.state = CommState.MODE1) :
    ∃ s2, stepCycle s [] [] = some s2 ∧
      s2.state = CommState.INIT ∧ s2.next_apc_msg = some APC_CMD_RESET := by
  refine ⟨_, by unfold stepCycle; rw [h, handle_empty_eq]; rfl, ?_, ?_⟩ <;>
    simp [cycle_post_state, cycle_post_next]

/-- From `MODE1`, an all-empty transport keeps the trace in the
    `INIT`/`INIT_RESET` recovery pair with the reset control byte queued at
    every cycle boundary. -/
lemma mode1_empty_trace_inv (st : ApcState) (h : st.state = CommState.MODE1) :
    ∀ n : ℕ, 1 ≤ n → ∃ s2, emptyTraceFrom st n = some s2 ∧
      (s2.state = CommState.INIT ∨ s2.state = CommState.INIT_RESET) ∧
      s2.next_apc_msg = some APC_CMD_RESET := by
  intro n
  induction n with
  | zero => omega
  | succ k ih =>
    intro _
    cases k with
    | zero =>
      obtain ⟨s2, hs2, hstate, hnext⟩ := step_mode1_empty st h
      exact ⟨s2, by simpa [emptyTraceFrom] using hs2, Or.inl hstate, hnext⟩
    | succ m =>
      obtain ⟨s2, hs2, hinv, _⟩ := ih (by omega)
      obtain ⟨s3, hs3, hinv3, hnext3⟩ := step_empty_invariant s2 hinv
      refine ⟨s3, ?_, hinv3, hnext3⟩
      show (emptyTraceFrom st (m + 1)).bind (fun s => stepCycle s [] []) = some s3
      rw [hs2]
      simpa using hs3

/-- Claim C10: if the state machine is in `MODE1` (a caller frame has just
    been transmitted) and from then on every receive returns empty, then at
    every subsequent cycle boundary the pending-command slot holds the reset
    control byte and never the keep-alive sentinel — so a caller blocked in
    `send_apc_msg` waiting for the keep-alive sentinel is never released
    while the responses stay empty. -/
theorem mode1_empty_responses_slot_never_keepalive (st : ApcState)
    (h : st.state = CommState.MODE1) (n : ℕ) (hn : 1 ≤ n) :
    ∃ s2, emptyTraceFrom st n = some s2 ∧
      s2.next_apc_msg = some APC_CMD_RESET ∧
      s2.next_apc_msg ≠ some APC_CMD_NEXT := by
  obtain ⟨s2, hs2, _, hnext⟩ := mode1_empty_trace_inv st h n hn
  refine ⟨s2, hs2, hnext, ?_⟩
  rw [hnext]
  decide

/-- Witness for `mode1_empty_responses_slot_never_keepalive` one cycle after
    `MODE1`. -/
theorem mode1_empty_responses_slot_never_keepalive_witness :
    ∃ s2, emptyTraceFrom { initApcState with state := CommState.MODE1 } 1 = some s2 ∧
      s2.next_apc_msg = some APC_CMD_RESET ∧
      s2.next_apc_msg ≠ some APC_CMD_NEXT :=
  mode1_empty_responses_slot_never_keepalive
    { initApcState with state := CommState.MODE1 } (by decide) 1 (by decide)

/-- Claim C8: `send_apc_msg` called while the connection state is anything
    other than `MODE1` returns `False` synchronously and leaves the whole
    state (the pending-command slot included) unchanged. -/
theorem send_apc_msg_rejected_outside_mode1 (st : ApcState) (raw : List ℕ)
    (h : st.state ≠ CommState.MODE1) :
    send_apc_msg st raw = (false, st) := by
  unfold send_apc_msg
  simp [h]

/-- Witness for `send_apc_msg_rejected_outside_mode1` at the initial state. -/
theorem send_apc_msg_rejected_outside_mode1_witness :
    send_apc_msg initApcState [0x71, 0x08, 0x02, 0x40, 0x02, 0x62, 0xDF] = (false, initApcState) :=
  send_apc_msg_rejected_outside_mode1 initApcState
    [0x71, 0x08, 0x02, 0x40, 0x02, 0x62, 0xDF] (by decide)

/-- Claim C9: `handle_apc_msg` is not total over non-empty checksum-valid
    buffers.  The frame `[0x00, 0xFF, 0xFF]` passes checksum verification
    but carries an empty payload, so the id-0x00 branch indexes past the end
    of `msg_data` and raises; the frame `[0x42, 0x7B, 0x42]` passes checksum
    verification but arrives before any id-0x41 message, so the id-0x42
    branch appends to the absent `ups_type` entry and raises.  In both cases
    the embedding returns `none` (an uncaught exception) instead of a
    `True`/`False` verdict. -/
theorem handle_apc_msg_raises_on_short_payloads :
    verify_msg_checksum [0x00, 0xFF, 0xFF] = true ∧
    handle_apc_msg initApcState (some [0x00, 0xFF, 0xFF]) [] = none ∧
    verify_msg_checksum [0x42, 0x7B, 0x42] = true ∧
    mapGet initApcState.ups_state "ups_type" = none ∧
    handle_apc_msg initApcState (some [0x42, 0x7B, 0x42]) [] = none := by
  decide

end ApcSerial
